import Mathlib

/-!
Verification of the NepalGoods backend order-workflow core.

The definitions below are a shallow embedding of the request handlers in
`src/server.js` (the main variant).  JavaScript numbers are modelled as `ℚ`,
absent / `undefined` values as `Option`, and JavaScript truthiness on strings
and numbers by explicit helper functions.  Each handler is split into a pure
"outcome" function (what the handler decides to send to a collaborator, or
which early error response it produces) and, where a claim needs it, a "run"
function that also models the Record Store collaborator as an association
list of records.  Clock reads (`new Date()`, `Date.now()`) are passed in as
explicit parameters, one per read in the source.
-/

namespace NepalGoods

/-- JavaScript truthiness of a possibly-absent string: `undefined` and the
empty string are falsy. -/
def truthyS : Option String → Bool
  | none => false
  | some s => !(s == "")

/-- JavaScript `x || d` for strings: returns `d` when `x` is absent or empty. -/
def jsOrS : Option String → String → String
  | none, d => d
  | some s, d => if s == "" then d else s

/-- JavaScript `x || d` for numbers: returns `d` when `x` is absent or zero. -/
def jsOrQ : Option ℚ → ℚ → ℚ
  | none, d => d
  | some q, d => if q == 0 then d else q

/-- JavaScript template interpolation of a possibly-absent string:
`undefined` prints as the text "undefined". -/
def jsStr : Option String → String
  | none => "undefined"
  | some s => s

/-- The `customer` section of an order-creation request body. -/
structure Customer where
  firstName : Option String
  lastName : Option String
  email : Option String
  phone : Option String
deriving DecidableEq

/-- The `shipping` section of an order-creation request body. -/
structure ShippingInfo where
  address : Option String
  city : Option String
  state : Option String
  zip : Option String
  country : Option String
  notes : Option String
deriving DecidableEq

/-- One line item of the `order.items` array. -/
structure OrderItem where
  name : String
  quantity : ℚ
  price : ℚ
  size : Option String
deriving DecidableEq

/-- The `order` section of an order-creation request body.  `items` is
`none` when the field is absent (dereferencing it then throws). -/
structure OrderInfo where
  items : Option (List OrderItem)
  subtotal : Option ℚ
  shipping : Option ℚ
  tax : Option ℚ
  serviceFee : Option ℚ
  total : Option ℚ
deriving DecidableEq

/-- The `payment` section of an order-creation request body. -/
structure PaymentInfo where
  method : Option String
  id : Option String
deriving DecidableEq

/-- A full order-creation request body (`POST /api/orders`). -/
structure CreateOrderRequest where
  customer : Option Customer
  shipping : Option ShippingInfo
  order : Option OrderInfo
  payment : Option PaymentInfo
  notes : Option String
deriving DecidableEq

/-- The fields of the Sales-table record the creation handler sends to the
Record Store (`server.js`, the body of the Airtable POST).  Timestamps are
kept as the numeric clock values passed to the handler. -/
structure SalesFields where
  orderId : String
  customerName : String
  customerEmail : String
  customerPhone : String
  shippingAddress : String
  orderItems : String
  subtotal : Option ℚ
  shipping : Option ℚ
  tax : Option ℚ
  serviceFee : ℚ
  total : Option ℚ
  paymentMethod : String
  stripePaymentId : String
  orderStatus : String
  orderDate : Nat
  deliveryNotes : String
  orderNotes : String
  statusUpdated : Nat
  assignedTo : String
  trackingNumber : String
deriving DecidableEq

/-- What the creation handler does before / instead of answering 200:
an early 400 validation response, a thrown-and-caught 500, or a Record
Store create call carrying the given fields. -/
inductive CreateOutcome
  | badRequest (error : String)
  | serverError (error : String)
  | storeCreate (fields : SalesFields)
deriving DecidableEq

/-- `true` exactly when the outcome issues the Record Store create call. -/
def CreateOutcome.calledStore : CreateOutcome → Bool
  | .storeCreate _ => true
  | _ => false

/-- The fields of the created record, when the store call was issued. -/
def CreateOutcome.createdFields : CreateOutcome → Option SalesFields
  | .storeCreate f => some f
  | _ => none

/-- Formatting of one line item (`server.js` line 263): the size suffix is
appended only when `item.size` is truthy. -/
def formatItem (item : OrderItem) : String :=
  toString item.quantity ++ "x " ++ item.name ++
    (if truthyS item.size then " (Size: " ++ jsStr item.size ++ ")" else "") ++
    " - $" ++ toString item.price

/-- The `POST /api/orders` handler of `server.js` (environment configured).
`nowMs` is the `Date.now()` read used for the order id, `tOrderDate` and
`tStatusUpdated` are the two separate `new Date()` reads used for the
`Order Date` and `Status Updated` fields, `rand` the random id suffix.
Validation: the four top-level sections must be present, then first name,
last name and email must be truthy; nothing else is checked.  A missing
`order.items` throws a TypeError, caught as a 500.  Otherwise the handler
issues the Record Store create call with the assembled fields. -/
def createOrder (req : CreateOrderRequest) (nowMs tOrderDate tStatusUpdated : Nat)
    (rand : String) : CreateOutcome :=
  match req.customer, req.shipping, req.order, req.payment with
  | some customer, some shipping, some order, some payment =>
    if !(truthyS customer.firstName && truthyS customer.lastName && truthyS customer.email) then
      .badRequest "Missing customer information"
    else
      let orderId := ("NG" ++ toString nowMs ++ rand).toUpper
      let shippingAddress :=
        jsStr shipping.address ++ ", " ++ jsStr shipping.city ++ ", " ++
        jsStr shipping.state ++ " " ++ jsStr shipping.zip ++ ", " ++ jsStr shipping.country
      match order.items with
      | none => .serverError "Failed to process order: TypeError"
      | some items =>
        .storeCreate
          { orderId := orderId
            customerName := jsStr customer.firstName ++ " " ++ jsStr customer.lastName
            customerEmail := jsStr customer.email
            customerPhone := jsOrS customer.phone "Not provided"
            shippingAddress := shippingAddress
            orderItems := String.intercalate "\n" (items.map formatItem)
            subtotal := order.subtotal
            shipping := order.shipping
            tax := order.tax
            serviceFee := jsOrQ order.serviceFee 0
            total := order.total
            paymentMethod := jsOrS payment.method "card"
            stripePaymentId := jsOrS payment.id "Unknown"
            orderStatus := "Paid"
            orderDate := tOrderDate
            deliveryNotes := jsOrS shipping.notes ""
            orderNotes := jsOrS req.notes ""
            statusUpdated := tStatusUpdated
            assignedTo := ""
            trackingNumber := "" }
  | _, _, _, _ => .badRequest "Missing required order information"

/-- The eight-value status enumeration of the single status-update handler
(`PATCH /api/orders/:recordId/status`). -/
def validStatuses : List String :=
  ["Paid", "Processing", "Shipped", "Delivered", "Cancelled", "Refunded",
   "On Hold", "Awaiting Information"]

/-- `validStatuses.includes(status)`: an absent status is not a member. -/
def statusValid : Option String → Bool
  | some s => validStatuses.contains s
  | none => false

/-- The 400 message of the single status-update handler. -/
def invalidStatusMsg : String :=
  "Invalid status. Must be one of: " ++ String.intercalate ", " validStatuses

/-- Body of a `PATCH /api/orders/:recordId/status` request. -/
structure StatusUpdateRequest where
  status : Option String
  trackingNumber : Option String
  notes : Option String
  assignedTo : Option String
deriving DecidableEq

/-- The `updateFields` object the handler sends in the Airtable PATCH body:
status and the fresh timestamp are always present, the three optional keys
are present exactly when the request supplied a truthy value for them
(`none` = key absent from the PATCH body). -/
structure UpdateFields where
  orderStatus : String
  statusUpdated : Nat
  trackingNumber : Option String
  assignedTo : Option String
  statusNotes : Option String
deriving DecidableEq

/-- What the single status-update handler decides: an early 400, or a
Record Store PATCH call for the given record with the given fields. -/
inductive UpdateOutcome
  | badRequest (error : String)
  | storePatch (recordId : String) (fields : UpdateFields)
deriving DecidableEq

/-- The validation and field-assembly part of
`PATCH /api/orders/:recordId/status` (`server.js` lines 356-424).
`now` is the `new Date()` read used for `Status Updated`. -/
def statusUpdateOutcome (recordId : String) (req : StatusUpdateRequest)
    (now : Nat) : UpdateOutcome :=
  if !(statusValid req.status) then
    .badRequest invalidStatusMsg
  else
    .storePatch recordId
      { orderStatus := (req.status).getD ""
        statusUpdated := now
        trackingNumber := if truthyS req.trackingNumber then req.trackingNumber else none
        assignedTo := if truthyS req.assignedTo then req.assignedTo else none
        statusNotes := if truthyS req.notes then req.notes else none }

/-- A stored Sales-table record, projected to the fields the status
workflow reads and writes.  The optional annotation fields are stored as
plain strings (empty = never set), as the Record Store returns them. -/
structure StoredOrder where
  orderId : String
  customerName : String
  customerEmail : String
  customerPhone : String
  shippingAddress : String
  orderItems : String
  orderStatus : String
  total : Option ℚ
  orderDate : Nat
  statusUpdated : Nat
  trackingNumber : String
  assignedTo : String
  statusNotes : String
  deliveryNotes : String
  orderNotes : String
deriving DecidableEq

/-- The Record Store's Sales table: an association list from record id to
record, in insertion order. -/
abbrev Store : Type := List (String × StoredOrder)

/-- Look a record up by id in the store. -/
def lookupRecord : Store → String → Option StoredOrder
  | [], _ => none
  | (k, v) :: tl, recordId => if k = recordId then some v else lookupRecord tl recordId

/-- How the Record Store applies one PATCH entry: keys present in the
update overwrite the corresponding field, absent keys leave it unchanged. -/
def applyUpdateFields (r : StoredOrder) (u : UpdateFields) : StoredOrder :=
  { r with
    orderStatus := u.orderStatus
    statusUpdated := u.statusUpdated
    trackingNumber := u.trackingNumber.getD r.trackingNumber
    assignedTo := u.assignedTo.getD r.assignedTo
    statusNotes := u.statusNotes.getD r.statusNotes }

/-- The store after the Record Store applies a PATCH for `recordId`: the
named record gets the update, every other record is untouched. -/
def updateRecordIn : Store → String → UpdateFields → Store
  | [], _, _ => []
  | (k, v) :: tl, recordId, u =>
    if k = recordId then (k, applyUpdateFields v u) :: updateRecordIn tl recordId u
    else (k, v) :: updateRecordIn tl recordId u

/-- An HTTP response of a handler: 200 with a typed body, or a non-2xx
status with the handler's error string. -/
inductive HttpResponse (α : Type)
  | ok (body : α)
  | failure (status : Nat) (error : String)
deriving DecidableEq

/-- The 200 body of the single status-update handler. -/
structure UpdateResponseBody where
  message : String
  recordId : String
  status : String
  assignedTo : Option String
  trackingNumber : Option String
  updatedAt : Nat
deriving DecidableEq

/-- Modelled Record Store diagnostic when a PATCH names an unknown record
id: the store answers non-ok and the handler surfaces its parsed message. -/
def upstreamNotFoundMessage : String := "Record not found"

/-- The full `PATCH /api/orders/:recordId/status` round trip against a
store: an early 400 leaves the store untouched; a PATCH for an unknown id
makes the store answer non-ok, which the handler re-throws and reports as
a 500 (there is no dedicated not-found branch in this handler); a PATCH
for a known id updates it and answers 200.  The source takes one more
clock read for the `updatedAt` response field; it is modelled with the
same value `now`, and no claim inspects it. -/
def statusUpdateRun (store : Store) (recordId : String) (req : StatusUpdateRequest)
    (now : Nat) : Store × HttpResponse UpdateResponseBody :=
  match statusUpdateOutcome recordId req now with
  | .badRequest e => (store, .failure 400 e)
  | .storePatch rid u =>
    match lookupRecord store rid with
    | none =>
      (store, .failure 500 ("Failed to update order status: " ++ upstreamNotFoundMessage))
    | some _ =>
      (updateRecordIn store rid u,
       .ok { message := "Order status updated to " ++ u.orderStatus
             recordId := rid
             status := u.orderStatus
             assignedTo := req.assignedTo
             trackingNumber := req.trackingNumber
             updatedAt := now })

/-- The 200 body of `GET /api/orders/:recordId/status`: the projection the
handler builds from the stored record, with `|| null` on the two optional
fields. -/
structure StatusProjection where
  orderId : String
  status : String
  customerName : String
  total : Option ℚ
  orderDate : Nat
  statusUpdated : Nat
  trackingNumber : Option String
  assignedTo : Option String
deriving DecidableEq

/-- `GET /api/orders/:recordId/status` (`server.js` lines 465-510): a 404
from the Record Store is answered specifically with 404 "Order not found";
a found record is projected. -/
def getOrderStatus (store : Store) (recordId : String) :
    HttpResponse StatusProjection :=
  match lookupRecord store recordId with
  | none => .failure 404 "Order not found"
  | some r =>
    .ok { orderId := r.orderId
          status := r.orderStatus
          customerName := r.customerName
          total := r.total
          orderDate := r.orderDate
          statusUpdated := r.statusUpdated
          trackingNumber := if r.trackingNumber == "" then none else some r.trackingNumber
          assignedTo := if r.assignedTo == "" then none else some r.assignedTo }

/-- The JavaScript value bound to `recordIds` in the bulk handler's request
body, kept untyped because the handler dereferences it before validating
its shape. -/
inductive RecordIdsValue
  | undefinedV
  | nullV
  | numV (q : ℚ)
  | strV (s : String)
  | boolV (b : Bool)
  | objV
  | arrV (ids : List String)
deriving DecidableEq

/-- Whether evaluating `recordIds.length` throws a TypeError: property
access throws exactly on `undefined` and `null`; every other value yields
some value (possibly `undefined`) without throwing. -/
def lengthAccessThrows : RecordIdsValue → Bool
  | .undefinedV => true
  | .nullV => true
  | _ => false

/-- `Array.isArray(recordIds)`. -/
def isArray : RecordIdsValue → Bool
  | .arrV _ => true
  | _ => false

/-- The narrower six-value enumeration of the bulk handler. -/
def bulkValidStatuses : List String :=
  ["Processing", "Shipped", "Delivered", "Cancelled", "Refunded", "On Hold"]

/-- Membership of a possibly-absent status in the bulk enumeration. -/
def bulkStatusValid : Option String → Bool
  | some s => bulkValidStatuses.contains s
  | none => false

/-- The 400 message of the bulk handler's status check. -/
def bulkInvalidStatusMsg : String :=
  "Invalid status. Must be one of: " ++ String.intercalate ", " bulkValidStatuses

/-- One entry of the bulk PATCH body: status and timestamp always, the
notes key only when `notes` is truthy (the conditional object spread). -/
structure BulkUpdateFields where
  orderStatus : String
  statusUpdated : Nat
  statusNotes : Option String
deriving DecidableEq

/-- What the bulk handler does: a thrown-and-caught 500, an early 400, or
a Record Store PATCH call carrying one entry per supplied record id. -/
inductive BulkOutcome
  | serverError (error : String)
  | badRequest (error : String)
  | storePatch (records : List (String × BulkUpdateFields))
deriving DecidableEq

/-- `POST /api/orders/bulk-status-update` (`server.js` lines 631-691).
The handler logs `recordIds.length` BEFORE any validation, so an absent or
null `recordIds` throws and is caught as a 500; then a non-array or empty
`recordIds` is a 400; then a status outside the six-value enumeration is a
400; otherwise the batch PATCH is issued.  `now` is the `new Date()` read
shared by all entries of the batch. -/
def bulkStatusUpdate (recordIds : RecordIdsValue) (status : Option String)
    (notes : Option String) (now : Nat) : BulkOutcome :=
  if lengthAccessThrows recordIds then
    .serverError "Bulk status update failed: TypeError"
  else
    match recordIds with
    | .arrV ids =>
      if ids.isEmpty then
        .badRequest "No record IDs provided"
      else if !(bulkStatusValid status) then
        .badRequest bulkInvalidStatusMsg
      else
        .storePatch (ids.map fun rid =>
          (rid,
           { orderStatus := status.getD ""
             statusUpdated := now
             statusNotes := if truthyS notes then notes else none }))
    | _ => .badRequest "No record IDs provided"

/-- `true` exactly when the bulk outcome issues the Record Store call. -/
def BulkOutcome.calledStore : BulkOutcome → Bool
  | .storePatch _ => true
  | _ => false

/-- The Payment Gateway's reply to a create-payment-intent call. -/
structure GatewayIntent where
  client_secret : String
  id : String
deriving DecidableEq

/-- What the payment-intent handler decides: an early 400, or a gateway
call with the amount and currency it actually sends. -/
inductive PaymentOutcome
  | badRequest (error : String)
  | gatewayCreate (amount : ℤ) (currency : String)
deriving DecidableEq

/-- JavaScript `Math.round`: nearest integer, halves towards positive
infinity. -/
def jsRound (q : ℚ) : ℤ := ⌊q + 1/2⌋

/-- The validation part of `POST /api/create-payment-intent` (`server.js`
lines 162-209, environment configured).  `currency = 'usd'` is the
destructuring default; the guard is `!amount || amount < 1`; the gateway
receives `Math.round(amount)` and the request currency. -/
def createPaymentIntentOutcome (amount : Option ℚ) (currency : Option String) :
    PaymentOutcome :=
  match amount with
  | none => .badRequest "Invalid amount"
  | some a =>
    if a == 0 then .badRequest "Invalid amount"
    else if a < 1 then .badRequest "Invalid amount"
    else .gatewayCreate (jsRound a) (currency.getD "usd")

/-- The 200 body of the payment-intent handler. -/
structure PaymentResponseBody where
  clientSecret : String
  paymentIntentId : String
deriving DecidableEq

/-- The full payment-intent round trip against a gateway modelled as a
function from (amount, currency) to its reply: the 200 body passes the
gateway's client secret and id through unchanged. -/
def createPaymentIntentRun (amount : Option ℚ) (currency : Option String)
    (gateway : ℤ → String → GatewayIntent) : HttpResponse PaymentResponseBody :=
  match createPaymentIntentOutcome amount currency with
  | .badRequest e => .failure 400 e
  | .gatewayCreate amt cur =>
    .ok { clientSecret := (gateway amt cur).client_secret
          paymentIntentId := (gateway amt cur).id }

/-- One row of the workstation listing (`GET /api/orders/workstation`),
with `|| ''` defaults on the annotation fields. -/
structure WorkstationOrder where
  recordId : String
  orderId : String
  customerName : String
  customerEmail : String
  customerPhone : String
  shippingAddress : String
  orderItems : String
  status : String
  total : Option ℚ
  orderDate : Nat
  statusUpdated : Nat
  trackingNumber : String
  assignedTo : String
  statusNotes : String
  deliveryNotes : String
  orderNotes : String
deriving DecidableEq

/-- The per-record projection of the workstation handler. -/
def projectWorkstation (p : String × StoredOrder) : WorkstationOrder :=
  { recordId := p.1
    orderId := p.2.orderId
    customerName := p.2.customerName
    customerEmail := p.2.customerEmail
    customerPhone := p.2.customerPhone
    shippingAddress := p.2.shippingAddress
    orderItems := p.2.orderItems
    status := p.2.orderStatus
    total := p.2.total
    orderDate := p.2.orderDate
    statusUpdated := p.2.statusUpdated
    trackingNumber := p.2.trackingNumber
    assignedTo := p.2.assignedTo
    statusNotes := p.2.statusNotes
    deliveryNotes := p.2.deliveryNotes
    orderNotes := p.2.orderNotes }

/-- Stable insertion into a list sorted by `Order Date` descending: the
new record goes before the first strictly-older record, after records of
the same date. -/
def insertByDateDesc (x : String × StoredOrder) :
    List (String × StoredOrder) → List (String × StoredOrder)
  | [] => [x]
  | y :: ys =>
    if y.2.orderDate < x.2.orderDate then x :: y :: ys
    else y :: insertByDateDesc x ys

/-- Modelled Record Store reply to the workstation handler's list query,
whose URL requests the sort `Order Date` descending: a stable descending
sort of the stored records (ties keep insertion order), modelling the
store honouring the requested sort. -/
def listRecordsByDateDesc (store : Store) : List (String × StoredOrder) :=
  List.foldr insertByDateDesc [] store

/-- `GET /api/orders/workstation` (`server.js` lines 513-561): the handler
maps the store's (descending-sorted) reply to the projection, preserving
the reply's order. -/
def workstationListing (store : Store) : List WorkstationOrder :=
  (listRecordsByDateDesc store).map projectWorkstation

/-! Concrete sample data used by witnesses and counterexamples. -/

/-- A request customer section with all required identity fields present. -/
def sampleCustomer : Customer :=
  { firstName := some "Asha", lastName := some "Rai",
    email := some "asha@example.com", phone := some "5551234" }

/-- A fully populated request shipping section. -/
def sampleShipping : ShippingInfo :=
  { address := some "1 Main St", city := some "Kathmandu", state := some "Bagmati",
    zip := some "44600", country := some "Nepal", notes := none }

/-- A request payment section with a gateway reference. -/
def samplePayment : PaymentInfo := { method := some "card", id := some "pi_123" }

/-- The spec scenario line item: 2x Scarf at 15. -/
def sampleItem : OrderItem := { name := "Scarf", quantity := 2, price := 15, size := none }

/-- An order section with one item and the spec scenario totals. -/
def sampleOrder : OrderInfo :=
  { items := some [sampleItem], subtotal := some 30, shipping := some 5,
    tax := some 2, serviceFee := some 1, total := some 38 }

/-- An order section whose item list is present but empty. -/
def emptyItemsOrder : OrderInfo :=
  { items := some [], subtotal := some 30, shipping := some 5,
    tax := some 2, serviceFee := some 1, total := some 38 }

/-- A stored record as created by the workflow (annotations still empty). -/
def sampleStored : StoredOrder :=
  { orderId := "NG1", customerName := "Asha Rai", customerEmail := "asha@example.com",
    customerPhone := "5551234", shippingAddress := "1 Main St, Kathmandu, Bagmati 44600, Nepal",
    orderItems := "2x Scarf - $15", orderStatus := "Paid", total := some 38,
    orderDate := 1, statusUpdated := 1, trackingNumber := "", assignedTo := "",
    statusNotes := "", deliveryNotes := "", orderNotes := "" }

/-- A stored record created later than `sampleStored`. -/
def sampleStored2 : StoredOrder := { sampleStored with orderDate := 2, orderStatus := "Processing" }

/-- A stored record created later than `sampleStored2`. -/
def sampleStored3 : StoredOrder := { sampleStored with orderDate := 3, orderId := "NG3" }

/-- A stored record whose three annotation fields are already non-empty. -/
def sampleStoredT : StoredOrder :=
  { sampleStored with trackingNumber := "TRK0", assignedTo := "jane", statusNotes := "fragile" }

/-! Helper lemmas shared by the claim theorems. -/

/-- A possibly-absent string is truthy exactly when it is a present,
non-empty string. -/
theorem truthyS_eq_true {o : Option String} :
    truthyS o = true ↔ ∃ s, o = some s ∧ s ≠ "" := by
  cases o with
  | none => simp [truthyS]
  | some s => simp [truthyS]

/-- Record lookup after a Record Store PATCH: the patched id is read back
with the update applied, every other id is unaffected. -/
theorem lookup_updateRecordIn (store : Store) (rid target : String) (u : UpdateFields) :
    lookupRecord (updateRecordIn store rid u) target
      = if target = rid then (lookupRecord store target).map (fun r => applyUpdateFields r u)
        else lookupRecord store target := by
  induction store with
  | nil => simp [lookupRecord, updateRecordIn]
  | cons hd tl ih =>
    obtain ⟨k, v⟩ := hd
    by_cases hr : k = rid
    · subst hr
      by_cases hk : k = target
      · subst hk
        simp [lookupRecord, updateRecordIn]
      · have hk2 : ¬ target = k := fun h => hk h.symm
        simp [lookupRecord, updateRecordIn, hk, hk2, ih]
    · by_cases hk : k = target
      · subst hk
        simp [lookupRecord, updateRecordIn, hr]
      · simp [lookupRecord, updateRecordIn, hr, hk, ih]

/-- The optional-key expression of the status-update handler yields a
present key only for a present, non-empty request value. -/
theorem truthyS_if_eq_some {o : Option String} {s : String}
    (h : (if truthyS o then o else none) = some s) : o = some s ∧ s ≠ "" := by
  by_cases ht : truthyS o
  · rw [if_pos ht] at h
    obtain ⟨s0, he, hne⟩ := truthyS_eq_true.mp ht
    rw [he] at h
    obtain rfl : s0 = s := Option.some.inj h
    exact ⟨he, hne⟩
  · rw [if_neg ht] at h
    exact absurd h (by simp)

/-- Merging the optional-key expression over a non-empty stored value can
never produce the empty string. -/
theorem getD_truthy_if_ne_empty (o : Option String) (x : String) (hx : x ≠ "") :
    ((if truthyS o then o else none).getD x) ≠ "" := by
  by_cases ht : truthyS o
  · obtain ⟨s, he, hne⟩ := truthyS_eq_true.mp ht
    simp [he, truthyS, hne]
  · simp [ht, hx]

/-! Claim theorems. -/

/-- C1 (counterexample): the order-creation handler does NOT reject a
request whose item list is empty — with a fully valid customer and an
empty `items` array the handler issues the Record Store create call, so a
record is created, contradicting the claim that such a request is
rejected with a validation error before any Record Store call. -/
theorem claim_C1_counterexample :
    (createOrder
      { customer := some sampleCustomer, shipping := some sampleShipping,
        order := some emptyItemsOrder, payment := some samplePayment, notes := none }
      5 7 7 "ABC").calledStore = true := by
  decide

/-- C1 (amended): order creation rejects, before any Record Store call and
with a validation error, any request missing one of the four top-level
sections, and any request whose customer identity is missing a truthy
first name, last name, or email; an empty item list is NOT rejected — with
a valid customer the handler proceeds to the Record Store create call. -/
theorem claim_C1_amended (c : Customer) (sh : ShippingInfo) (o : OrderInfo)
    (p : PaymentInfo) (notes : Option String) (nowMs t1 t2 : Nat) (rand : String) :
    ((truthyS c.firstName && truthyS c.lastName && truthyS c.email) = false →
      createOrder
        { customer := some c, shipping := some sh, order := some o,
          payment := some p, notes := notes } nowMs t1 t2 rand
        = .badRequest "Missing customer information") ∧
    (createOrder
        { customer := none, shipping := some sh, order := some o,
          payment := some p, notes := notes } nowMs t1 t2 rand
        = .badRequest "Missing required order information") ∧
    ((truthyS c.firstName && truthyS c.lastName && truthyS c.email) = true →
      o.items = some [] →
      (createOrder
        { customer := some c, shipping := some sh, order := some o,
          payment := some p, notes := notes } nowMs t1 t2 rand).calledStore = true) := by
  refine ⟨fun h => ?_, rfl, fun h hi => ?_⟩
  · simp [createOrder, h]
  · simp [createOrder, h, hi, CreateOutcome.calledStore]

/-- C1 (witness): the amended theorem at concrete inputs — a request with
a missing first name is rejected as "Missing customer information", and a
valid request with an empty item list reaches the Record Store. -/
theorem claim_C1_witness :
    createOrder
      { customer := some { firstName := none, lastName := some "Rai",
                           email := some "asha@example.com", phone := none },
        shipping := some sampleShipping, order := some sampleOrder,
        payment := some samplePayment, notes := none } 5 7 7 "ABC"
      = .badRequest "Missing customer information" ∧
    (createOrder
      { customer := some sampleCustomer, shipping := some sampleShipping,
        order := some emptyItemsOrder, payment := some samplePayment, notes := none }
      5 7 7 "ABC").calledStore = true := by
  constructor
  · exact (claim_C1_amended
      { firstName := none, lastName := some "Rai",
        email := some "asha@example.com", phone := none }
      sampleShipping sampleOrder samplePayment none 5 7 7 "ABC").1 (by decide)
  · exact (claim_C1_amended sampleCustomer sampleShipping emptyItemsOrder
      samplePayment none 5 7 7 "ABC").2.2 (by decide) (by decide)

/-- C2 (counterexample): the creation handler takes its two timestamps
from two separate clock reads; when the clock advances between them
(here 0 then 1) the stored record has `Order Date` 0 but `Status Updated`
1, so the creation timestamp does not equal the status-updated timestamp,
contradicting "both set to the same instant". -/
theorem claim_C2_counterexample :
    ((createOrder
      { customer := some sampleCustomer, shipping := some sampleShipping,
        order := some sampleOrder, payment := some samplePayment, notes := none }
      5 0 1 "ABC").createdFields.map
        (fun f => (f.orderStatus, f.orderDate, f.statusUpdated)))
      = some ("Paid", 0, 1) ∧ (0 : Nat) ≠ 1 := by
  exact ⟨by decide, by decide⟩

/-- C2 (amended): every successful order creation stores status "Paid";
the creation timestamp is the first clock read and the status-updated
timestamp the second, so the two are equal whenever the clock does not
advance between the handler's two reads (but are not forced equal). -/
theorem claim_C2_amended (c : Customer) (sh : ShippingInfo) (o : OrderInfo)
    (p : PaymentInfo) (notes : Option String) (items : List OrderItem)
    (nowMs t1 t2 : Nat) (rand : String)
    (hc : (truthyS c.firstName && truthyS c.lastName && truthyS c.email) = true)
    (hi : o.items = some items) :
    ∃ f, createOrder
        { customer := some c, shipping := some sh, order := some o,
          payment := some p, notes := notes } nowMs t1 t2 rand = .storeCreate f
      ∧ f.orderStatus = "Paid" ∧ f.orderDate = t1 ∧ f.statusUpdated = t2
      ∧ (t1 = t2 → f.orderDate = f.statusUpdated) := by
  simp only [createOrder, hc, Bool.not_true, Bool.false_eq_true, if_false, hi]
  exact ⟨_, rfl, rfl, rfl, rfl, fun h => h⟩

/-- C2 (witness): the amended theorem at a concrete input where both
clock reads return 7: status is "Paid" and the two timestamps agree. -/
theorem claim_C2_witness :
    ∃ f, createOrder
        { customer := some sampleCustomer, shipping := some sampleShipping,
          order := some sampleOrder, payment := some samplePayment, notes := none }
        5 7 7 "ABC" = .storeCreate f
      ∧ f.orderStatus = "Paid" ∧ f.orderDate = 7 ∧ f.statusUpdated = 7
      ∧ (7 = 7 → f.orderDate = f.statusUpdated) :=
  claim_C2_amended sampleCustomer sampleShipping sampleOrder samplePayment none
    [sampleItem] 5 7 7 "ABC" (by decide) (by decide)

/-- C3 (confirmed): a status-update request whose target status is not in
the eight-value enumeration is answered 400 with the enumeration message,
no Record Store PATCH is issued, and the store is unchanged. -/
theorem claim_C3 (store : Store) (recordId : String) (req : StatusUpdateRequest)
    (now : Nat) (h : statusValid req.status = false) :
    statusUpdateOutcome recordId req now = .badRequest invalidStatusMsg ∧
    statusUpdateRun store recordId req now = (store, .failure 400 invalidStatusMsg) := by
  have h1 : statusUpdateOutcome recordId req now = .badRequest invalidStatusMsg := by
    simp [statusUpdateOutcome, h]
  exact ⟨h1, by simp [statusUpdateRun, h1]⟩

/-- C3 (witness): the status string "Bogus" is outside the enumeration and
is rejected with 400, leaving a one-record store unchanged. -/
theorem claim_C3_witness :
    statusValid (some "Bogus") = false ∧
    statusUpdateRun [("rec1", sampleStored)] "rec1"
        { status := some "Bogus", trackingNumber := none, notes := none, assignedTo := none } 2
      = ([("rec1", sampleStored)], .failure 400 invalidStatusMsg) :=
  ⟨by decide,
   (claim_C3 [("rec1", sampleStored)] "rec1"
      { status := some "Bogus", trackingNumber := none, notes := none, assignedTo := none }
      2 (by decide)).2⟩

/-- C4 (confirmed): the bulk status-update handler rejects an empty
record-id list with 400, and rejects any target status outside its
six-value enumeration with 400; "Paid" and "Awaiting Information" are
outside that enumeration.  Both rejections happen before any Record Store
call (the outcome is a 400, not a store PATCH). -/
theorem claim_C4 (ids : List String) (status notes : Option String) (now : Nat) :
    bulkStatusUpdate (.arrV []) status notes now = .badRequest "No record IDs provided" ∧
    (ids ≠ [] → bulkStatusValid status = false →
      bulkStatusUpdate (.arrV ids) status notes now = .badRequest bulkInvalidStatusMsg) ∧
    bulkStatusValid (some "Paid") = false ∧
    bulkStatusValid (some "Awaiting Information") = false := by
  refine ⟨by simp [bulkStatusUpdate, lengthAccessThrows], fun hne hs => ?_, by decide, by decide⟩
  have hempty : ids.isEmpty = false := by
    cases ids with
    | nil => exact absurd rfl hne
    | cons a l => rfl
  simp [bulkStatusUpdate, lengthAccessThrows, hempty, hs]

/-- C4 (witness): a non-empty id list with target status "Paid" is
rejected with the bulk enumeration message, and an empty id list is
rejected with "No record IDs provided". -/
theorem claim_C4_witness :
    (["r1"] : List String) ≠ [] ∧
    bulkStatusValid (some "Paid") = false ∧
    bulkStatusUpdate (.arrV ["r1"]) (some "Paid") none 4 = .badRequest bulkInvalidStatusMsg ∧
    bulkStatusUpdate (.arrV []) (some "Paid") none 4 = .badRequest "No record IDs provided" :=
  ⟨by decide, by decide,
   (claim_C4 ["r1"] (some "Paid") none 4).2.1 (by decide) (by decide),
   (claim_C4 ["r1"] (some "Paid") none 4).1⟩

/-- C9 (counterexample): a `recordIds` that is a number — present but not
array-like — does NOT produce a generic internal failure: the `.length`
access on a number does not throw, the `Array.isArray` check fails, and
the handler answers with the empty-list validation error, contradicting
the claim that only a present-but-empty array yields that error. -/
theorem claim_C9_counterexample :
    bulkStatusUpdate (.numV 42) (some "Shipped") none 0
      = .badRequest "No record IDs provided" := by
  decide

/-- C9 (amended): when `recordIds` is absent (`undefined`) or `null`, the
handler dereferences `recordIds.length` before validation, throws, and
fails with the generic internal 500; any other non-array value (number,
string, boolean, plain object) does not throw, fails the `Array.isArray`
check, and yields the empty-list validation error — as does a
present-but-empty array. -/
theorem claim_C9_amended (q : ℚ) (s : String) (b : Bool)
    (status notes : Option String) (now : Nat) :
    bulkStatusUpdate .undefinedV status notes now
      = .serverError "Bulk status update failed: TypeError" ∧
    bulkStatusUpdate .nullV status notes now
      = .serverError "Bulk status update failed: TypeError" ∧
    bulkStatusUpdate (.numV q) status notes now = .badRequest "No record IDs provided" ∧
    bulkStatusUpdate (.strV s) status notes now = .badRequest "No record IDs provided" ∧
    bulkStatusUpdate (.boolV b) status notes now = .badRequest "No record IDs provided" ∧
    bulkStatusUpdate .objV status notes now = .badRequest "No record IDs provided" ∧
    bulkStatusUpdate (.arrV []) status notes now = .badRequest "No record IDs provided" := by
  refine ⟨rfl, rfl, rfl, rfl, ?_, rfl, ?_⟩
  · cases b <;> rfl
  · simp [bulkStatusUpdate, lengthAccessThrows]

/-- C5 (counterexample): the accepted amount 3/2 (a non-integer, as
JavaScript numbers allow) is NOT passed to the gateway unchanged: the
handler sends `Math.round(amount)`, so the gateway receives 2 while the
request carried 3/2, contradicting "no amount transformation". -/
theorem claim_C5_counterexample :
    createPaymentIntentOutcome (some (3 / 2)) none = .gatewayCreate 2 "usd" ∧
    ((3 : ℚ) / 2 ≠ ((2 : ℤ) : ℚ)) := by
  constructor
  · simp only [createPaymentIntentOutcome]
    norm_num [jsRound]
  · norm_num

/-- C5 (amended): payment-intent creation rejects a missing, zero, or
negative amount (indeed any amount below 1) with 400 before any gateway
call; every accepted amount is passed to the gateway as
`Math.round(amount)` — the identity on integer amounts, with no currency
conversion or scaling — and the 200 body carries the gateway's client
secret and identifier unchanged. -/
theorem claim_C5_amended (a : ℚ) (currency : Option String)
    (gateway : ℤ → String → GatewayIntent) :
    createPaymentIntentOutcome none currency = .badRequest "Invalid amount" ∧
    (a ≤ 0 → createPaymentIntentOutcome (some a) currency = .badRequest "Invalid amount") ∧
    (0 < a → a < 1 → createPaymentIntentOutcome (some a) currency
        = .badRequest "Invalid amount") ∧
    (1 ≤ a → createPaymentIntentOutcome (some a) currency
        = .gatewayCreate (jsRound a) (currency.getD "usd")) ∧
    (∀ n : ℤ, jsRound ((n : ℚ)) = n) ∧
    (1 ≤ a → createPaymentIntentRun (some a) currency gateway
        = .ok { clientSecret := (gateway (jsRound a) (currency.getD "usd")).client_secret
                paymentIntentId := (gateway (jsRound a) (currency.getD "usd")).id }) := by
  have hmain : 1 ≤ a → createPaymentIntentOutcome (some a) currency
      = .gatewayCreate (jsRound a) (currency.getD "usd") := by
    intro h1
    have h0 : ¬ (a == 0) = true := by
      simp only [beq_iff_eq]
      intro h; rw [h] at h1; norm_num at h1
    have hlt : ¬ a < 1 := not_lt.mpr h1
    simp [createPaymentIntentOutcome, h0, hlt]
  refine ⟨rfl, fun h => ?_, fun h0 h1 => ?_, hmain, fun n => ?_, fun h1 => ?_⟩
  · by_cases hz : a = 0
    · simp [createPaymentIntentOutcome, hz]
    · have : a < 1 := lt_of_le_of_lt h (by norm_num)
      simp [createPaymentIntentOutcome, hz, this]
  · have hz : ¬ (a == 0) = true := by
      simp only [beq_iff_eq]
      intro h; rw [h] at h0; norm_num at h0
    simp [createPaymentIntentOutcome, hz, h1]
  · unfold jsRound
    rw [Int.floor_int_add]
    norm_num
  · simp [createPaymentIntentRun, hmain h1]

/-- C5 (witness): amount 100 is accepted, sent to the stub gateway as the
unchanged integer 100, and the stub's client secret and id come back in
the 200 body; amounts 0 and -5 are rejected with 400. -/
theorem claim_C5_witness :
    (1 : ℚ) ≤ 100 ∧ (0 : ℚ) ≤ 0 ∧ (-5 : ℚ) ≤ 0 ∧
    createPaymentIntentOutcome (some 0) none = .badRequest "Invalid amount" ∧
    createPaymentIntentOutcome (some (-5)) none = .badRequest "Invalid amount" ∧
    createPaymentIntentOutcome (some 100) none = .gatewayCreate (jsRound 100) "usd" ∧
    createPaymentIntentRun (some 100) none
        (fun _ _ => { client_secret := "cs_test", id := "pi_test" })
      = .ok { clientSecret := "cs_test", paymentIntentId := "pi_test" } := by
  refine ⟨by norm_num, le_refl 0, by norm_num, ?_, ?_, ?_, ?_⟩
  · exact (claim_C5_amended 0 none
      (fun _ _ => { client_secret := "cs_test", id := "pi_test" })).2.1 (le_refl 0)
  · exact (claim_C5_amended (-5) none
      (fun _ _ => { client_secret := "cs_test", id := "pi_test" })).2.1 (by norm_num)
  · exact (claim_C5_amended 100 none
      (fun _ _ => { client_secret := "cs_test", id := "pi_test" })).2.2.2.1 (by norm_num)
  · exact (claim_C5_amended 100 none
      (fun _ _ => { client_secret := "cs_test", id := "pi_test" })).2.2.2.2.2 (by norm_num)

/-- C6 (confirmed): every accepted status update stamps the fresh
status-updated timestamp; the PATCH body carries a tracking number,
assignee, or status-notes key only when the request supplied one (a
present, non-empty value), and every such field not supplied is left
unchanged in the stored record — in particular, supplying a tracking
number while omitting the assignee overwrites the tracking number and
leaves the assignee untouched. -/
theorem claim_C6 (recordId : String) (r : StoredOrder) (req : StatusUpdateRequest)
    (now : Nat) (hv : statusValid req.status = true) :
    ∃ u, statusUpdateOutcome recordId req now = .storePatch recordId u ∧
      u.statusUpdated = now ∧
      (applyUpdateFields r u).statusUpdated = now ∧
      (∀ s, u.trackingNumber = some s → req.trackingNumber = some s ∧ s ≠ "") ∧
      (∀ s, u.assignedTo = some s → req.assignedTo = some s ∧ s ≠ "") ∧
      (∀ s, u.statusNotes = some s → req.notes = some s ∧ s ≠ "") ∧
      (truthyS req.trackingNumber = false →
        (applyUpdateFields r u).trackingNumber = r.trackingNumber) ∧
      (truthyS req.assignedTo = false →
        (applyUpdateFields r u).assignedTo = r.assignedTo) ∧
      (truthyS req.notes = false →
        (applyUpdateFields r u).statusNotes = r.statusNotes) ∧
      (∀ s, req.trackingNumber = some s → s ≠ "" → truthyS req.assignedTo = false →
        (applyUpdateFields r u).trackingNumber = s ∧
        (applyUpdateFields r u).assignedTo = r.assignedTo) := by
  refine ⟨{ orderStatus := (req.status).getD ""
            statusUpdated := now
            trackingNumber := if truthyS req.trackingNumber then req.trackingNumber else none
            assignedTo := if truthyS req.assignedTo then req.assignedTo else none
            statusNotes := if truthyS req.notes then req.notes else none },
    ?_, rfl, rfl,
    fun s hs => truthyS_if_eq_some hs,
    fun s hs => truthyS_if_eq_some hs,
    fun s hs => truthyS_if_eq_some hs,
    fun hf => by simp [applyUpdateFields, hf],
    fun hf => by simp [applyUpdateFields, hf],
    fun hf => by simp [applyUpdateFields, hf],
    fun s hs hne hf => ⟨by simp [applyUpdateFields, hs, truthyS, hne],
                        by simp [applyUpdateFields, hf]⟩⟩
  simp [statusUpdateOutcome, hv]

/-- C6 (witness): updating to "Shipped" with a tracking number and no
assignee stamps the timestamp, writes the tracking number, and leaves the
stored assignee "jane" unchanged. -/
theorem claim_C6_witness :
    statusValid (some "Shipped") = true ∧
    ∃ u, statusUpdateOutcome "rec1"
          { status := some "Shipped", trackingNumber := some "TRK1",
            notes := none, assignedTo := none } 9 = .storePatch "rec1" u ∧
      u.statusUpdated = 9 ∧
      (applyUpdateFields sampleStoredT u).statusUpdated = 9 ∧
      (∀ s, u.trackingNumber = some s →
        (some "TRK1" : Option String) = some s ∧ s ≠ "") ∧
      (∀ s, u.assignedTo = some s → (none : Option String) = some s ∧ s ≠ "") ∧
      (∀ s, u.statusNotes = some s → (none : Option String) = some s ∧ s ≠ "") ∧
      (truthyS (some "TRK1") = false →
        (applyUpdateFields sampleStoredT u).trackingNumber = sampleStoredT.trackingNumber) ∧
      (truthyS none = false →
        (applyUpdateFields sampleStoredT u).assignedTo = sampleStoredT.assignedTo) ∧
      (truthyS none = false →
        (applyUpdateFields sampleStoredT u).statusNotes = sampleStoredT.statusNotes) ∧
      (∀ s, (some "TRK1" : Option String) = some s → s ≠ "" → truthyS none = false →
        (applyUpdateFields sampleStoredT u).trackingNumber = s ∧
        (applyUpdateFields sampleStoredT u).assignedTo = sampleStoredT.assignedTo) :=
  ⟨by decide,
   claim_C6 "rec1" sampleStoredT
     { status := some "Shipped", trackingNumber := some "TRK1",
       notes := none, assignedTo := none } 9 (by decide)⟩

/-- C7 (counterexample): updating the status of a record id that does not
exist in the (here empty) Record Store is reported as a generic 500
collaborator failure — the handler has no not-found branch — while the
status lookup on the same id does report the specific 404 "Order not
found"; this contradicts the claim that BOTH operations report a specific
not-found outcome. -/
theorem claim_C7_counterexample :
    statusUpdateRun ([] : Store) "recMISSING"
        { status := some "Shipped", trackingNumber := none, notes := none, assignedTo := none } 3
      = (([] : Store),
         .failure 500 ("Failed to update order status: " ++ upstreamNotFoundMessage)) ∧
    getOrderStatus ([] : Store) "recMISSING" = .failure 404 "Order not found" := by
  exact ⟨by decide, by decide⟩

/-- C7 (amended): a status lookup naming a record id absent from the
Record Store reports the specific 404 "Order not found"; a status update
naming an absent record id is reported as a generic 500 collaborator
failure, not as a specific not-found outcome. -/
theorem claim_C7_amended (store : Store) (recordId : String) (req : StatusUpdateRequest)
    (now : Nat) (hmiss : lookupRecord store recordId = none) :
    getOrderStatus store recordId = .failure 404 "Order not found" ∧
    (statusValid req.status = true →
      statusUpdateRun store recordId req now
        = (store, .failure 500 ("Failed to update order status: " ++ upstreamNotFoundMessage))) := by
  refine ⟨by simp [getOrderStatus, hmiss], fun hv => ?_⟩
  simp [statusUpdateRun, statusUpdateOutcome, hv, hmiss]

/-- C7 (witness): the amended theorem on a one-record store and the
missing id "recMISSING", with target status "Shipped". -/
theorem claim_C7_witness :
    lookupRecord [("rec1", sampleStored)] "recMISSING" = none ∧
    statusValid (some "Shipped") = true ∧
    getOrderStatus [("rec1", sampleStored)] "recMISSING" = .failure 404 "Order not found" ∧
    statusUpdateRun [("rec1", sampleStored)] "recMISSING"
        { status := some "Shipped", trackingNumber := none, notes := none, assignedTo := none } 3
      = ([("rec1", sampleStored)],
         .failure 500 ("Failed to update order status: " ++ upstreamNotFoundMessage)) :=
  ⟨by decide, by decide,
   (claim_C7_amended [("rec1", sampleStored)] "recMISSING"
      { status := some "Shipped", trackingNumber := none, notes := none, assignedTo := none }
      3 (by decide)).1,
   (claim_C7_amended [("rec1", sampleStored)] "recMISSING"
      { status := some "Shipped", trackingNumber := none, notes := none, assignedTo := none }
      3 (by decide)).2 (by decide)⟩

/-- C8 (confirmed): the workstation listing, with the Record Store
honouring the requested descending sort on `Order Date`, returns records
created at t1 < t2 < t3 in the order [t3, t2, t1], projected unchanged. -/
theorem claim_C8 (id1 id2 id3 : String) (r1 r2 r3 : StoredOrder)
    (h12 : r1.orderDate < r2.orderDate) (h23 : r2.orderDate < r3.orderDate) :
    workstationListing [(id1, r1), (id2, r2), (id3, r3)]
      = [projectWorkstation (id3, r3), projectWorkstation (id2, r2),
         projectWorkstation (id1, r1)] := by
  have h13 : ¬ r3.orderDate < r1.orderDate := by omega
  have h21 : ¬ r2.orderDate < r1.orderDate := by omega
  have h32 : ¬ r3.orderDate < r2.orderDate := by omega
  simp [workstationListing, listRecordsByDateDesc, insertByDateDesc, h13, h21, h32]

/-- C8 (witness): three sample records created at 1 < 2 < 3 are listed
newest first. -/
theorem claim_C8_witness :
    sampleStored.orderDate < sampleStored2.orderDate ∧
    sampleStored2.orderDate < sampleStored3.orderDate ∧
    workstationListing [("a", sampleStored), ("b", sampleStored2), ("c", sampleStored3)]
      = [projectWorkstation ("c", sampleStored3), projectWorkstation ("b", sampleStored2),
         projectWorkstation ("a", sampleStored)] :=
  ⟨by decide, by decide,
   claim_C8 "a" "b" "c" sampleStored sampleStored2 sampleStored3 (by decide) (by decide)⟩

/-- C10 (confirmed): under the status-update operation the three
annotation fields can never be cleared: a request supplying the empty
string for one of them produces a PATCH body without that key, and for
every record in the store, a field that was non-empty before any
status-update request is still non-empty afterwards. -/
theorem claim_C10 (store : Store) (rid target : String) (req : StatusUpdateRequest)
    (now : Nat) (r : StoredOrder) (hr : lookupRecord store target = some r) :
    (∀ u rid2, statusUpdateOutcome rid req now = .storePatch rid2 u →
       (req.trackingNumber = some "" → u.trackingNumber = none) ∧
       (req.assignedTo = some "" → u.assignedTo = none) ∧
       (req.notes = some "" → u.statusNotes = none)) ∧
    ∃ r2, lookupRecord (statusUpdateRun store rid req now).1 target = some r2 ∧
      (r.trackingNumber ≠ "" → r2.trackingNumber ≠ "") ∧
      (r.assignedTo ≠ "" → r2.assignedTo ≠ "") ∧
      (r.statusNotes ≠ "" → r2.statusNotes ≠ "") := by
  constructor
  · intro u rid2 h
    by_cases hv : statusValid req.status
    · rw [statusUpdateOutcome, if_neg (by simp [hv])] at h
      obtain ⟨-, hu⟩ := UpdateOutcome.storePatch.inj h
      subst hu
      exact ⟨fun he => by simp [he, truthyS], fun he => by simp [he, truthyS],
             fun he => by simp [he, truthyS]⟩
    · rw [statusUpdateOutcome, if_pos (by simp [Bool.eq_false_iff.mpr hv])] at h
      exact absurd h (by simp)
  · by_cases hv : statusValid req.status
    · cases hlk : lookupRecord store rid with
      | none =>
        refine ⟨r, ?_, fun h => h, fun h => h, fun h => h⟩
        simp [statusUpdateRun, statusUpdateOutcome, hv, hlk, hr]
      | some r0 =>
        by_cases ht : target = rid
        · subst ht
          obtain rfl : r = r0 := by
            rw [hr] at hlk
            exact Option.some.inj hlk
          refine ⟨applyUpdateFields r
            { orderStatus := (req.status).getD ""
              statusUpdated := now
              trackingNumber := if truthyS req.trackingNumber then req.trackingNumber else none
              assignedTo := if truthyS req.assignedTo then req.assignedTo else none
              statusNotes := if truthyS req.notes then req.notes else none }, ?_, ?_, ?_, ?_⟩
          · simp [statusUpdateRun, statusUpdateOutcome, hv, hlk,
              lookup_updateRecordIn, hr]
          · exact fun h => getD_truthy_if_ne_empty req.trackingNumber r.trackingNumber h
          · exact fun h => getD_truthy_if_ne_empty req.assignedTo r.assignedTo h
          · exact fun h => getD_truthy_if_ne_empty req.notes r.statusNotes h
        · refine ⟨r, ?_, fun h => h, fun h => h, fun h => h⟩
          simp [statusUpdateRun, statusUpdateOutcome, hv, hlk,
            lookup_updateRecordIn, ht, hr]
    · refine ⟨r, ?_, fun h => h, fun h => h, fun h => h⟩
      simp [statusUpdateRun, statusUpdateOutcome, Bool.eq_false_iff.mpr hv, hr]

/-- C10 (witness): a request supplying empty strings for all three
annotation fields against a record whose tracking number, assignee, and
notes are non-empty leaves all three non-empty. -/
theorem claim_C10_witness :
    lookupRecord [("rec1", sampleStoredT)] "rec1" = some sampleStoredT ∧
    ∃ r2, lookupRecord
        (statusUpdateRun [("rec1", sampleStoredT)] "rec1"
          { status := some "Shipped", trackingNumber := some "",
            notes := some "", assignedTo := some "" } 9).1 "rec1" = some r2 ∧
      (sampleStoredT.trackingNumber ≠ "" → r2.trackingNumber ≠ "") ∧
      (sampleStoredT.assignedTo ≠ "" → r2.assignedTo ≠ "") ∧
      (sampleStoredT.statusNotes ≠ "" → r2.statusNotes ≠ "") :=
  ⟨by decide,
   (claim_C10 [("rec1", sampleStoredT)] "rec1" "rec1"
      { status := some "Shipped", trackingNumber := some "",
        notes := some "", assignedTo := some "" } 9 sampleStoredT (by decide)).2⟩

end NepalGoods
